import Mathlib

/-!
Verification of the RNAView profiling instrumentation (`rnaview_profile.c`,
`include/rnaview_profile.h`), the end-to-end regression script, and the
spec-level model of the pair-detection core against the repository's
specification.

Shallow embedding conventions:
* C `long` / `long long` values are modelled as `Int` (the counters and time
  accumulators are monotone and never rely on wraparound).
* C strings are `List Char`; a possibly-NULL `char *` is `Option (List Char)`.
* The global `RNAVIEW_PROFILE` is threaded explicitly as a value of
  `RnaViewProfile`; clock readings (`rnaview_profile_now_ns`) and `fopen`
  success enter as explicit parameters.
-/

set_option maxRecDepth 100000

namespace RnaView

/-- Mirror of the C struct `RnaViewProfile` from `include/rnaview_profile.h`.
The two fixed 1024-byte path buffers are modelled by the C-string contents
they hold. -/
structure RnaViewProfile where
  enabled : Int
  num_residue : Int
  cand_pairs : Int
  all_pairs_check_pairs_calls : Int
  all_pairs_base_stack_calls : Int
  all_pairs_hbond_pair_calls : Int
  all_pairs_hbond_pair_h_catalog_calls : Int
  all_pairs_lw_pair_type_calls : Int
  all_pairs_lw_get_hbond_ij_calls : Int
  best_pair_check_pairs_calls : Int
  begin_ns : Int
  end_ns : Int
  base_info_ns : Int
  all_pairs_total_ns : Int
  all_pairs_candidate_ns : Int
  all_pairs_check_pairs_ns : Int
  all_pairs_base_stack_ns : Int
  all_pairs_hbond_pair_ns : Int
  all_pairs_hbond_pair_h_catalog_ns : Int
  all_pairs_lw_pair_type_ns : Int
  all_pairs_lw_get_hbond_ij_ns : Int
  best_pair_total_ns : Int
  best_pair_check_pairs_ns : Int
  input_path : List Char
  json_path : List Char
  deriving DecidableEq

/-- The all-zero profile, i.e. the C initialiser `RNAVIEW_PROFILE = {0}` and
the result of `memset(&RNAVIEW_PROFILE, 0, sizeof(RNAVIEW_PROFILE))` (a zeroed
char buffer holds the empty C string). -/
def zeroProfile : RnaViewProfile :=
  { enabled := 0, num_residue := 0, cand_pairs := 0
    all_pairs_check_pairs_calls := 0, all_pairs_base_stack_calls := 0
    all_pairs_hbond_pair_calls := 0, all_pairs_hbond_pair_h_catalog_calls := 0
    all_pairs_lw_pair_type_calls := 0, all_pairs_lw_get_hbond_ij_calls := 0
    best_pair_check_pairs_calls := 0, begin_ns := 0, end_ns := 0
    base_info_ns := 0, all_pairs_total_ns := 0, all_pairs_candidate_ns := 0
    all_pairs_check_pairs_ns := 0, all_pairs_base_stack_ns := 0
    all_pairs_hbond_pair_ns := 0, all_pairs_hbond_pair_h_catalog_ns := 0
    all_pairs_lw_pair_type_ns := 0, all_pairs_lw_get_hbond_ij_ns := 0
    best_pair_total_ns := 0, best_pair_check_pairs_ns := 0
    input_path := [], json_path := [] }

/-- C-string contents written by `copy_str(dst, cap, src)`: `none` when the
function returns without touching `dst` (`dst` NULL or `cap == 0`), otherwise
`some` of the string stored in `dst` afterwards. A NULL `src` yields the empty
string; otherwise the first `min(strlen(src), cap-1)` characters of `src` are
copied and NUL-terminated. -/
def copy_str (dstNull : Bool) (cap : Nat) (src : Option (List Char)) :
    Option (List Char) :=
  if dstNull ∨ cap = 0 then none
  else
    match src with
    | none => some []
    | some s => some (s.take (cap - 1))

/-- Number of bytes `copy_str` stores into `dst` (copied characters plus the
terminating NUL; zero when it returns early). -/
def copy_str_writes (dstNull : Bool) (cap : Nat) (src : Option (List Char)) :
    Nat :=
  if dstNull ∨ cap = 0 then 0
  else
    match src with
    | none => 1
    | some s => min s.length (cap - 1) + 1

/-- `rnaview_profile_is_enabled`: `RNAVIEW_PROFILE.enabled != 0`. -/
def rnaview_profile_is_enabled (st : RnaViewProfile) : Bool :=
  st.enabled ≠ 0

/-- `rnaview_profile_begin(input_path, num_residue)`. `env` is the value of
`getenv("RNAVIEW_PROFILE_JSON")` (`none` when unset); `now` is the
`rnaview_profile_now_ns()` reading taken inside the call. When the variable is
unset or empty only `enabled` is cleared; otherwise the whole struct is zeroed
(`memset`) and then populated. -/
def rnaview_profile_begin (st : RnaViewProfile) (env : Option (List Char))
    (inputPath : Option (List Char)) (numResidue : Int) (now : Int) :
    RnaViewProfile :=
  match env with
  | none => { st with enabled := 0 }
  | some p =>
    if p = [] then { st with enabled := 0 }
    else
      { zeroProfile with
        enabled := 1
        num_residue := numResidue
        input_path := (copy_str false 1024 inputPath).getD []
        json_path := (copy_str false 1024 (some p)).getD []
        begin_ns := now }

/-- `rnaview_profile_add_all_pairs_hbond_pair_h_catalog(delta_ns)`. -/
def rnaview_profile_add_all_pairs_hbond_pair_h_catalog
    (st : RnaViewProfile) (deltaNs : Int) : RnaViewProfile :=
  if st.enabled = 0 then st
  else
    { st with
      all_pairs_hbond_pair_h_catalog_ns :=
        st.all_pairs_hbond_pair_h_catalog_ns + deltaNs
      all_pairs_hbond_pair_h_catalog_calls :=
        st.all_pairs_hbond_pair_h_catalog_calls + 1 }

/-- `rnaview_profile_add_all_pairs_lw_get_hbond_ij(delta_ns)`. -/
def rnaview_profile_add_all_pairs_lw_get_hbond_ij
    (st : RnaViewProfile) (deltaNs : Int) : RnaViewProfile :=
  if st.enabled = 0 then st
  else
    { st with
      all_pairs_lw_get_hbond_ij_ns :=
        st.all_pairs_lw_get_hbond_ij_ns + deltaNs
      all_pairs_lw_get_hbond_ij_calls :=
        st.all_pairs_lw_get_hbond_ij_calls + 1 }

/-- Helper `json_kv_ll` / `json_kv_long`: one `fprintf` line
`    "k": v,` with an optional trailing comma. -/
def jsonKV (k : String) (v : Int) (comma : Bool) : List Char :=
  ("    \"" ++ k ++ "\": " ++ toString v ++
    (if comma then "," else "") ++ "\n").data

/-- Full JSON text produced by the `fprintf` sequence of
`rnaview_profile_dump`, given the profile state after `end_ns` was stored. -/
def dumpContent (st : RnaViewProfile) : List Char :=
  "\x7b\n".data ++
  "  \"schema_version\": 1,\n".data ++
  ("  \"input\": \"" ++ String.mk st.input_path ++ "\",\n").data ++
  ("  \"num_residue\": " ++ toString st.num_residue ++ ",\n").data ++
  "  \"counts\": \x7b\n".data ++
  jsonKV "cand_pairs" st.cand_pairs true ++
  jsonKV "all_pairs_check_pairs_calls" st.all_pairs_check_pairs_calls true ++
  jsonKV "all_pairs_base_stack_calls" st.all_pairs_base_stack_calls true ++
  jsonKV "all_pairs_hbond_pair_calls" st.all_pairs_hbond_pair_calls true ++
  jsonKV "all_pairs_hbond_pair_h_catalog_calls"
    st.all_pairs_hbond_pair_h_catalog_calls true ++
  jsonKV "all_pairs_lw_pair_type_calls" st.all_pairs_lw_pair_type_calls true ++
  jsonKV "all_pairs_lw_get_hbond_ij_calls"
    st.all_pairs_lw_get_hbond_ij_calls true ++
  jsonKV "best_pair_check_pairs_calls" st.best_pair_check_pairs_calls false ++
  "  \x7d,\n".data ++
  "  \"times_ns\": \x7b\n".data ++
  jsonKV "total" (st.end_ns - st.begin_ns) true ++
  jsonKV "base_info" st.base_info_ns true ++
  jsonKV "all_pairs_total" st.all_pairs_total_ns true ++
  jsonKV "all_pairs_candidate" st.all_pairs_candidate_ns true ++
  jsonKV "all_pairs_check_pairs" st.all_pairs_check_pairs_ns true ++
  jsonKV "all_pairs_base_stack" st.all_pairs_base_stack_ns true ++
  jsonKV "all_pairs_hbond_pair" st.all_pairs_hbond_pair_ns true ++
  jsonKV "all_pairs_hbond_pair_h_catalog"
    st.all_pairs_hbond_pair_h_catalog_ns true ++
  jsonKV "all_pairs_lw_pair_type" st.all_pairs_lw_pair_type_ns true ++
  jsonKV "all_pairs_lw_get_hbond_ij" st.all_pairs_lw_get_hbond_ij_ns true ++
  jsonKV "best_pair_total" st.best_pair_total_ns true ++
  jsonKV "best_pair_check_pairs" st.best_pair_check_pairs_ns false ++
  "  \x7d\n".data ++
  "\x7d\n".data

/-- A completed `fopen(path, "w")` + write sequence: the file that a call
created and its full contents. -/
structure FileWrite where
  path : List Char
  content : List Char
  deriving DecidableEq

/-- `rnaview_profile_dump()`. `now` is the `rnaview_profile_now_ns()` reading
taken inside the call and `fopenOk` tells whether `fopen(json_path, "w")`
succeeded. Returns the updated profile and the file written, if any. -/
def rnaview_profile_dump (st : RnaViewProfile) (now : Int) (fopenOk : Bool) :
    RnaViewProfile × Option FileWrite :=
  if st.enabled = 0 ∨ st.json_path = [] then (st, none)
  else
    let st' := { st with end_ns := now }
    if fopenOk then (st', some ⟨st'.json_path, dumpContent st'⟩)
    else (st', none)

/-! Spec-level model of the pair-detection core. The engine sources
(`fpair.c`, `fpair_sub.c`, `rnaview.c`, …) are not part of this tree — only
the profiling instrumentation, the regression script and the documentation
are — so the pipeline below is modelled from the specification. -/

/-- Modelled from the spec: the record `kind` of a finalized output entity
(`pair`, `stacked`, `unknown`); the engine assigning it is missing from the
sources. -/
inductive PairKind
  | pair
  | stacked
  | unknown
  deriving DecidableEq

/-- Modelled from the spec: the verdict the classifier components C5–C7
assign to one surviving candidate (kind, LW edge code, and the
edge-orientation statistics key `<edge_i><edge_j>-<orient>`); the classifier
itself is missing from the sources and enters the model as a function
parameter. -/
structure VerdictInfo where
  kind : PairKind
  lw : Option (List Char)
  typeKey : List Char
  deriving DecidableEq

/-- Modelled from the spec: a finalized `PairRecord` of the output record
set, restricted to the fields the verified claims mention. -/
structure PairRecord where
  i : Nat
  j : Nat
  kind : PairKind
  lw : Option (List Char)
  typeKey : List Char
  deriving DecidableEq

/-- Modelled from the spec: an input residue as the core sees it, carrying
the outcome of the base-recognition component C2 (the recognition code is
missing from the sources). -/
structure Residue where
  resname : List Char
  isBase : Bool
  deriving DecidableEq

/-- Modelled from the spec: `total_bases` is the number of residues
recognised as bases. -/
def countBases (residues : List Residue) : Nat :=
  (residues.filter fun r => r.isBase).length

/-- Modelled from the spec: the candidate enumeration of `all_pairs` — every
ordered pair of 1-based base indices `(i, j)` with `1 ≤ i < j ≤ n`. -/
def candidate_pairs (n : Nat) : List (Nat × Nat) :=
  (List.product (List.range n) (List.range n)).filterMap
    fun ab => if ab.1 < ab.2 then some (ab.1 + 1, ab.2 + 1) else none

/-- Modelled from the spec: `all_pairs` assigns to each candidate at most one
verdict (components C5–C7, missing from the sources, enter as the `classify`
parameter) and keeps one record per unordered index pair. -/
def all_pairs (n : Nat) (classify : Nat → Nat → Option VerdictInfo) :
    List PairRecord :=
  (candidate_pairs n).filterMap fun ij =>
    (classify ij.1 ij.2).map fun v =>
      { i := ij.1, j := ij.2, kind := v.kind, lw := v.lw, typeKey := v.typeKey }

/-- Unordered index pair of a record, as the deduplication key. -/
def pairKey (r : PairRecord) : Nat × Nat := (r.i, r.j)

/-- Modelled from the spec: the `InternalInvariantViolation` check — every
record satisfies `1 ≤ i < j ≤ total_bases` and no two records share an index
pair; a violation aborts the analysis. -/
def records_wellformed (n : Nat) (rs : List PairRecord) : Bool :=
  rs.all (fun r => decide (1 ≤ r.i) && decide (r.i < r.j) && decide (r.j ≤ n))
    && decide (rs.map pairKey).Nodup

/-- Modelled from the spec: `total_pairs` counts the records with
`kind = pair`. -/
def numPairs (rs : List PairRecord) : Nat :=
  (rs.filter fun r => decide (r.kind = PairKind.pair)).length

/-- Statistics keys of the `pair` records, with multiplicity. -/
def pairTypeKeys (rs : List PairRecord) : List (List Char) :=
  (rs.filter fun r => decide (r.kind = PairKind.pair)).map fun r => r.typeKey

/-- Modelled from the spec: `pair_type_counts` maps each occurring
edge-orientation key to the number of `pair` records carrying it. -/
def pairTypeCountsOf (rs : List PairRecord) : List (List Char × Nat) :=
  (pairTypeKeys rs).dedup.map fun k => (k, (pairTypeKeys rs).count k)

/-- Edges of the pair graph: index pairs of the `kind = pair` records. -/
def pair_edges (rs : List PairRecord) : List (Nat × Nat) :=
  (rs.filter fun r => decide (r.kind = PairKind.pair)).map pairKey

/-- One union step of the connected-component fold: merge every component
touching either endpoint of the edge with the edge's endpoints. -/
def insert_edge (comps : List (List Nat)) (e : Nat × Nat) : List (List Nat) :=
  (e.1 :: e.2 ::
      (comps.filter fun c => decide (e.1 ∈ c ∨ e.2 ∈ c)).flatten).dedup ::
    comps.filter fun c => decide (¬(e.1 ∈ c ∨ e.2 ∈ c))

/-- Modelled from the spec: multiplet synthesis C9 — connected components of
size at least 3 over the pair graph, their member indices sorted
ascending. -/
def multipletsOf (rs : List PairRecord) : List (List Nat) :=
  (((pair_edges rs).foldl insert_edge []).filter fun c =>
      decide (3 ≤ c.length)).map fun c =>
    c.mergeSort fun a b => decide (a ≤ b)

/-- Modelled from the spec: the `core` record of the structured output —
record set, multiplets and statistics, plus the reported empty-structure
condition. -/
structure CoreResult where
  base_pairs : List PairRecord
  multiplets : List (List Nat)
  total_pairs : Nat
  total_bases : Nat
  pair_type_counts : List (List Char × Nat)
  empty_reported : Bool
  deriving DecidableEq

/-- Modelled from the spec: the analysis core as one function from the
recognised residues and the classifier to the final `core` record; an
`InternalInvariantViolation` aborts with an error, an empty structure yields
the well-defined empty result with the condition reported. -/
def analyze (residues : List Residue)
    (classify : Nat → Nat → Option VerdictInfo) :
    Except (List Char) CoreResult :=
  let n := countBases residues
  let rs := all_pairs n classify
  if records_wellformed n rs then
    .ok { base_pairs := rs
          multiplets := multipletsOf rs
          total_pairs := numPairs rs
          total_bases := n
          pair_type_counts := pairTypeCountsOf rs
          empty_reported := decide (n = 0) }
  else .error "InternalInvariantViolation".data

/-- Textual line of one record in the text surface. -/
def emit_pair_line (r : PairRecord) : List Char :=
  (toString r.i ++ "_" ++ toString r.j ++ ", ").data ++ r.typeKey ++ "\n".data

/-- Textual line of one multiplet in the text surface. -/
def emit_multiplet_line (m : List Nat) : List Char :=
  (String.intercalate "_" (m.map toString) ++ "\n").data

/-- Textual line of one statistics entry. -/
def emit_count_line (kv : List Char × Nat) : List Char :=
  kv.1 ++ (": " ++ toString kv.2 ++ "\n").data

/-- Modelled from the spec: the textual surface of the canonical emitter C11
(missing from the sources); the legacy whitespace layout is abstracted, the
section structure and determinism are kept. -/
def emit_text (res : CoreResult) : List Char :=
  "BEGIN_base-pair\n".data ++
  res.base_pairs.flatMap emit_pair_line ++
  "END_base-pair\n".data ++
  "BEGIN_multiplets\n".data ++
  res.multiplets.flatMap emit_multiplet_line ++
  "END_multiplets\n".data ++
  ("The total base pairs = " ++ toString res.total_pairs ++ " (from " ++
    toString res.total_bases ++ " bases)\n").data ++
  (res.pair_type_counts.flatMap emit_count_line)

/-- Modelled from the spec: the structured (JSON) surface of the canonical
emitter C11 (missing from the sources); serialization detail is abstracted,
determinism is kept. -/
def emit_json (res : CoreResult) : List Char :=
  "\x7b \"schema_version\": 1, \"core\": \x7b \"base_pairs\": [".data ++
  res.base_pairs.flatMap emit_pair_line ++
  "], \"multiplets\": [".data ++
  res.multiplets.flatMap emit_multiplet_line ++
  ("], \"stats\": \x7b \"total_pairs\": " ++ toString res.total_pairs ++
    ", \"total_bases\": " ++ toString res.total_bases ++
    ", \"pair_type_counts\": [").data ++
  (res.pair_type_counts.flatMap emit_count_line) ++
  "] \x7d \x7d \x7d".data

/-- Environment of one invocation: everything outside the input bytes and
options — the `RNAVIEW_PROFILE_JSON` variable, the clock readings, the
time deltas fed to the accumulators during the run, the pre-existing global
profile, and `fopen` success. -/
structure Invocation where
  env : Option (List Char)
  clock_begin : Int
  deltas_h_catalog : List Int
  deltas_lw_get_hbond_ij : List Int
  clock_end : Int
  prof0 : RnaViewProfile
  fopen_ok : Bool

/-- One full instrumented run: `rnaview_profile_begin`, the core analysis,
the accumulator calls made while it runs, and `rnaview_profile_dump` —
returning the core result, the final profile and the profile file written,
if any. The core analysis never reads the profile; the profiling functions
never touch analysis state (they are compiled from a translation unit whose
only mutable data is `RNAVIEW_PROFILE`). -/
def run_instrumented (residues : List Residue)
    (classify : Nat → Nat → Option VerdictInfo)
    (inputPath : Option (List Char)) (inv : Invocation) :
    Except (List Char) CoreResult × RnaViewProfile × Option FileWrite :=
  let p1 := rnaview_profile_begin inv.prof0 inv.env inputPath
    (Int.ofNat residues.length) inv.clock_begin
  let core := analyze residues classify
  let p2 := inv.deltas_h_catalog.foldl
    rnaview_profile_add_all_pairs_hbond_pair_h_catalog p1
  let p3 := inv.deltas_lw_get_hbond_ij.foldl
    rnaview_profile_add_all_pairs_lw_get_hbond_ij p2
  let pf := rnaview_profile_dump p3 inv.clock_end inv.fopen_ok
  (core, pf.1, pf.2)

/-! Model of the bundled end-to-end test script (`test.sh`): build the legacy
binary if missing, create a temporary output directory, run the batch
regression over a fixed input list, remove the directory and exit 0 on
success, keep it and exit 1 on failure. -/

/-- The fixed input list the script passes to `rnaview_batch.py run`. -/
def test_inputs : List String :=
  [ "test/pdb/pdb1nvy/pdb1nvy.pdb"
  , "test/pdb/test1/test1.pdb"
  , "test/pdb/tr0001/tr0001.pdb"
  , "test/pdb/url064/url064.pdb"
  , "test/pdb/urx053/urx053.pdb"
  , "test/mmcif/insertion_code/1EFW/1EFW.cif"
  , "test/mmcif/insertion_code/1VVJ/1VVJ.cif"
  , "test/mmcif/insertion_code/4ARC/4ARC.cif"
  , "test/mmcif/nmr_structure/8if5/8if5.cif"
  , "test/mmcif/other/6pom/6pom.cif"
  , "test/mmcif/x-ray/3P4J/assembly-1/3p4j-assembly1.cif"
  , "test/mmcif/x-ray/434D/assembly-1/434d-assembly1.cif"
  , "test/mmcif/x-ray/434D/assembly-2/434d-assembly2.cif"
  , "test/mmcif/x-ray/4NMG/assembly-1/4nmg-assembly1.cif" ]

/-- Modelled from the spec: the regression modes of `rnaview_batch.py` (the
tool is not in the sources): `core` compares records at the semantic field
level, `out` is the stricter byte-exact gate on the whole `.out` file. -/
inductive RegressMode
  | core
  | out
  deriving DecidableEq

/-- Modelled from the spec: the stricter, byte-exact gate is regress mode
`out`. -/
def byte_exact_mode : RegressMode := RegressMode.out

/-- The regress mode the script selects with `--regress-mode out`. -/
def script_regress_mode : RegressMode := RegressMode.out

/-- Full argument vector of the `rnaview_batch.py` invocation in the
script. -/
def batch_args (outDir : String) : List String :=
  ["run"] ++ test_inputs ++
    ["--out-dir", outDir, "--regress", "--regress-mode", "out", "--keep-going"]

/-- Observable outcome of one script run. -/
structure ScriptOutcome where
  exit_code : Nat
  out_dir_created : Bool
  out_dir_removed : Bool
  deriving DecidableEq

/-- The script under `set -e`: an unsuccessful build aborts with the build's
exit status before the output directory exists; otherwise the batch
regression runs, and its success decides between `rm -rf` plus exit 0 and
keeping the directory plus exit 1. -/
def run_test_script (binPresent buildOk : Bool) (buildExit : Nat)
    (batchOk : Bool) : ScriptOutcome :=
  if ¬binPresent ∧ ¬buildOk then ⟨buildExit, false, false⟩
  else if batchOk then ⟨0, true, true⟩
  else ⟨1, true, false⟩

/-! Concrete instances used by the evaluation witnesses. -/

/-- A tiny demo structure: one G, one C, one water. -/
def demoResidues : List Residue :=
  [⟨"  G".data, true⟩, ⟨"  C".data, true⟩, ⟨"HOH".data, false⟩]

/-- A demo structure with no recognised nucleic residue. -/
def demoEmptyResidues : List Residue := [⟨"HOH".data, false⟩]

/-- A demo classifier: the single candidate (1, 2) is a canonical
Watson–Crick pair, everything else gets no verdict. -/
def demoClassify : Nat → Nat → Option VerdictInfo := fun i j =>
  if i = 1 ∧ j = 2 then
    some ⟨PairKind.pair, some "+/+".data, "++-cis".data⟩
  else none

/-- A demo profile carrying a stale counter from a previous run. -/
def demoStaleProfile : RnaViewProfile := { zeroProfile with cand_pairs := 5 }

/-- A demo profile with profiling enabled and a JSON target path. -/
def demoEnabledProfile : RnaViewProfile :=
  { zeroProfile with enabled := 1, json_path := "profile.json".data }

/-- A demo invocation environment with profiling enabled. -/
def demoInv : Invocation :=
  { env := some "profile.json".data, clock_begin := 100
    deltas_h_catalog := [3, 4], deltas_lw_get_hbond_ij := [5]
    clock_end := 250, prof0 := zeroProfile, fopen_ok := true }

/-- A second demo invocation environment, profiling disabled, different
clocks, deltas and pre-existing profile. -/
def demoInv2 : Invocation :=
  { env := none, clock_begin := 7
    deltas_h_catalog := [], deltas_lw_get_hbond_ij := [9]
    clock_end := 8, prof0 := demoStaleProfile, fopen_ok := false }

/-! Helper lemmas. -/

theorem mem_candidate_pairs {n : Nat} {p : Nat × Nat} :
    p ∈ candidate_pairs n ↔ 1 ≤ p.1 ∧ p.1 < p.2 ∧ p.2 ≤ n := by
  obtain ⟨i, j⟩ := p
  simp only [candidate_pairs, List.mem_filterMap]
  constructor
  · rintro ⟨⟨a, b⟩, hmem, hf⟩
    rw [List.pair_mem_product, List.mem_range, List.mem_range] at hmem
    obtain ⟨ha, hb⟩ := hmem
    split at hf
    · simp only [Option.some.injEq, Prod.mk.injEq] at hf
      obtain ⟨h1, h2⟩ := hf
      subst h1; subst h2
      refine ⟨by omega, by omega, by omega⟩
    · exact absurd hf (by simp)
  · rintro ⟨h1, h2, h3⟩
    refine ⟨(i - 1, j - 1), ?_, ?_⟩
    · rw [List.pair_mem_product, List.mem_range, List.mem_range]
      exact ⟨by omega, by omega⟩
    · have hij : i - 1 < j - 1 := by omega
      rw [if_pos hij]
      simp only [Option.some.injEq, Prod.mk.injEq]
      exact ⟨by omega, by omega⟩

theorem candidate_pairs_nodup (n : Nat) : (candidate_pairs n).Nodup := by
  refine List.Nodup.filterMap ?_
    (((List.nodup_range n).product (List.nodup_range n)))
  rintro ⟨a, b⟩ ⟨a', b'⟩ ⟨x, y⟩ h1 h2
  simp only [Option.mem_def] at h1 h2
  split at h1
  · split at h2
    · simp only [Option.some.injEq, Prod.mk.injEq] at h1 h2
      obtain ⟨hx1, hy1⟩ := h1
      obtain ⟨hx2, hy2⟩ := h2
      have : a = a' := by omega
      have : b = b' := by omega
      simp_all
    · exact absurd h2 (by simp)
  · exact absurd h1 (by simp)

theorem all_pairs_mem_bounds {n : Nat} {classify : Nat → Nat → Option VerdictInfo}
    {r : PairRecord} (h : r ∈ all_pairs n classify) :
    1 ≤ r.i ∧ r.i < r.j ∧ r.j ≤ n := by
  simp only [all_pairs, List.mem_filterMap] at h
  obtain ⟨ij, hmem, hf⟩ := h
  rw [mem_candidate_pairs] at hmem
  cases hc : classify ij.1 ij.2 with
  | none => rw [hc] at hf; exact absurd hf (by simp)
  | some v =>
    rw [hc] at hf
    simp only [Option.map_some', Option.some.injEq] at hf
    subst hf
    exact hmem

theorem all_pairs_keys_nodup (n : Nat)
    (classify : Nat → Nat → Option VerdictInfo) :
    ((all_pairs n classify).map pairKey).Nodup := by
  rw [all_pairs, List.map_filterMap]
  refine List.Nodup.filterMap ?_ (candidate_pairs_nodup n)
  rintro ⟨a, b⟩ ⟨a', b'⟩ ⟨x, y⟩ h1 h2
  simp only [Option.mem_def] at h1 h2
  cases hc : classify a b with
  | none => rw [hc] at h1; exact absurd h1 (by simp)
  | some v =>
    cases hc' : classify a' b' with
    | none => rw [hc'] at h2; exact absurd h2 (by simp)
    | some v' =>
      rw [hc] at h1
      rw [hc'] at h2
      simp only [Option.map_some', Option.some.injEq] at h1 h2
      rw [pairKey] at h1 h2
      simp only [Prod.mk.injEq] at h1 h2
      obtain ⟨hx1, hy1⟩ := h1
      obtain ⟨hx2, hy2⟩ := h2
      simp_all

theorem records_wellformed_all_pairs (n : Nat)
    (classify : Nat → Nat → Option VerdictInfo) :
    records_wellformed n (all_pairs n classify) = true := by
  rw [records_wellformed, Bool.and_eq_true]
  constructor
  · rw [List.all_eq_true]
    intro r hr
    obtain ⟨h1, h2, h3⟩ := all_pairs_mem_bounds hr
    simp [h1, h2, h3]
  · exact decide_eq_true (all_pairs_keys_nodup n classify)

theorem analyze_ok_eq (residues : List Residue)
    (classify : Nat → Nat → Option VerdictInfo) :
    analyze residues classify = Except.ok
      { base_pairs := all_pairs (countBases residues) classify
        multiplets := multipletsOf (all_pairs (countBases residues) classify)
        total_pairs := numPairs (all_pairs (countBases residues) classify)
        total_bases := countBases residues
        pair_type_counts :=
          pairTypeCountsOf (all_pairs (countBases residues) classify)
        empty_reported := decide (countBases residues = 0) } := by
  rw [analyze]
  simp only [records_wellformed_all_pairs, if_true]

theorem count_indicator_sum {α : Type} [DecidableEq α] (x : α) (d : List α)
    (hd : d.Nodup) :
    (d.map fun a => if a = x then (1 : Nat) else 0).sum =
      if x ∈ d then 1 else 0 := by
  induction d with
  | nil => simp
  | cons a t ih =>
    rw [List.nodup_cons] at hd
    obtain ⟨ha, ht⟩ := hd
    simp only [List.map_cons, List.sum_cons, List.mem_cons, ih ht]
    by_cases hax : a = x
    · subst hax
      have hxt : a ∉ t := ha
      simp [hxt]
    · have : ¬x = a := fun h => hax h.symm
      by_cases hxt : x ∈ t <;> simp [hax, hxt, this]

theorem sum_map_add_distrib {α : Type} (f g : α → Nat) (d : List α) :
    (d.map fun a => f a + g a).sum = (d.map f).sum + (d.map g).sum := by
  induction d with
  | nil => simp
  | cons a t ih =>
    simp only [List.map_cons, List.sum_cons, ih]
    omega

theorem sum_counts (l d : List (List Char)) (hd : d.Nodup)
    (hl : ∀ a ∈ l, a ∈ d) :
    (d.map fun k => l.count k).sum = l.length := by
  induction l with
  | nil => simp
  | cons x t ih =>
    have hx : x ∈ d := hl x (List.mem_cons_self x t)
    have ht : ∀ a ∈ t, a ∈ d := fun a ha => hl a (List.mem_cons_of_mem _ ha)
    have hcc : ∀ k : List Char,
        (x :: t).count k = t.count k + if k = x then 1 else 0 := by
      intro k
      rw [List.count_cons]
      by_cases h : k = x
      · subst h; simp
      · have h2 : ¬x = k := fun hh => h hh.symm
        simp [h, h2]
    calc (d.map fun k => (x :: t).count k).sum
        = (d.map fun k => t.count k + if k = x then 1 else 0).sum := by
          congr 1
          exact List.map_congr_left fun k _ => hcc k
      _ = (d.map fun k => t.count k).sum
            + (d.map fun k => if k = x then (1 : Nat) else 0).sum :=
          sum_map_add_distrib _ _ d
      _ = t.length + 1 := by
          rw [ih ht, count_indicator_sum x d hd, if_pos hx]
      _ = (x :: t).length := by simp

theorem pair_type_counts_sum (rs : List PairRecord) :
    ((pairTypeCountsOf rs).map Prod.snd).sum = numPairs rs := by
  rw [pairTypeCountsOf, List.map_map]
  have h : (Prod.snd ∘ fun k => (k, (pairTypeKeys rs).count k)) =
      fun k => (pairTypeKeys rs).count k := rfl
  rw [h, sum_counts (pairTypeKeys rs) (pairTypeKeys rs).dedup
    (List.nodup_dedup _) (fun a ha => List.mem_dedup.2 ha)]
  rw [pairTypeKeys, numPairs, List.length_map]

theorem dump_write_path (st : RnaViewProfile) (now : Int) (ok : Bool)
    (fw : FileWrite) (h : (rnaview_profile_dump st now ok).2 = some fw) :
    fw.path = st.json_path := by
  rw [rnaview_profile_dump] at h
  split at h
  · exact absurd h (by simp)
  · by_cases hok : ok = true
    · rw [if_pos hok] at h
      simp only [Option.some.injEq] at h
      rw [← h]
    · rw [if_neg hok] at h
      exact absurd h (by simp)

theorem dump_fst_json_path (st : RnaViewProfile) (now : Int) (ok : Bool) :
    (rnaview_profile_dump st now ok).1.json_path = st.json_path := by
  rw [rnaview_profile_dump]
  split
  · rfl
  · by_cases hok : ok = true
    · rw [if_pos hok]
    · rw [if_neg hok]

/-! Claim theorems. -/

/-- C8: postcondition of `rnaview_profile_begin`. If `RNAVIEW_PROFILE_JSON`
is unset or empty the call only clears `enabled` and leaves every other
field unchanged; otherwise it zeroes the entire struct and then sets
`enabled = 1`, stores `num_residue`, copies `input_path` and the environment
value truncated into the 1024-byte buffers, and records the clock reading in
`begin_ns` — so with profiling enabled, every call counter and time
accumulator is zero at the start of the analysis. -/
theorem rnaview_profile_begin_post (st : RnaViewProfile)
    (env ip : Option (List Char)) (nr now : Int) :
    (env = none ∨ env = some [] →
      rnaview_profile_begin st env ip nr now = { st with enabled := 0 }) ∧
    (∀ p : List Char, env = some p → p ≠ [] →
      rnaview_profile_begin st env ip nr now =
        { zeroProfile with
            enabled := 1
            num_residue := nr
            input_path := (ip.getD []).take 1023
            json_path := p.take 1023
            begin_ns := now } ∧
      ((rnaview_profile_begin st env ip nr now).cand_pairs = 0 ∧
        (rnaview_profile_begin st env ip nr now).all_pairs_check_pairs_calls = 0 ∧
        (rnaview_profile_begin st env ip nr now).all_pairs_base_stack_calls = 0 ∧
        (rnaview_profile_begin st env ip nr now).all_pairs_hbond_pair_calls = 0 ∧
        (rnaview_profile_begin st env ip nr now).all_pairs_hbond_pair_h_catalog_calls = 0 ∧
        (rnaview_profile_begin st env ip nr now).all_pairs_lw_pair_type_calls = 0 ∧
        (rnaview_profile_begin st env ip nr now).all_pairs_lw_get_hbond_ij_calls = 0 ∧
        (rnaview_profile_begin st env ip nr now).best_pair_check_pairs_calls = 0 ∧
        (rnaview_profile_begin st env ip nr now).base_info_ns = 0 ∧
        (rnaview_profile_begin st env ip nr now).all_pairs_total_ns = 0 ∧
        (rnaview_profile_begin st env ip nr now).all_pairs_candidate_ns = 0 ∧
        (rnaview_profile_begin st env ip nr now).all_pairs_check_pairs_ns = 0 ∧
        (rnaview_profile_begin st env ip nr now).all_pairs_base_stack_ns = 0 ∧
        (rnaview_profile_begin st env ip nr now).all_pairs_hbond_pair_ns = 0 ∧
        (rnaview_profile_begin st env ip nr now).all_pairs_hbond_pair_h_catalog_ns = 0 ∧
        (rnaview_profile_begin st env ip nr now).all_pairs_lw_pair_type_ns = 0 ∧
        (rnaview_profile_begin st env ip nr now).all_pairs_lw_get_hbond_ij_ns = 0 ∧
        (rnaview_profile_begin st env ip nr now).best_pair_total_ns = 0 ∧
        (rnaview_profile_begin st env ip nr now).best_pair_check_pairs_ns = 0)) := by
  constructor
  · rintro (rfl | rfl)
    · rfl
    · rw [rnaview_profile_begin]
      rw [if_pos rfl]
  · rintro p rfl hp
    have heq : rnaview_profile_begin st (some p) ip nr now =
        { zeroProfile with
            enabled := 1
            num_residue := nr
            input_path := (ip.getD []).take 1023
            json_path := p.take 1023
            begin_ns := now } := by
      rw [rnaview_profile_begin, if_neg hp]
      cases ip <;> simp [copy_str]
    refine ⟨heq, ?_⟩
    rw [heq]
    refine ⟨rfl, rfl, rfl, rfl, rfl, rfl, rfl, rfl, rfl, rfl, rfl, rfl, rfl,
      rfl, rfl, rfl, rfl, rfl, rfl⟩

/-- C8 witness: concrete evaluation of the `rnaview_profile_begin`
postcondition on a stale profile, for both the disabled and the enabled
branch. -/
theorem rnaview_profile_begin_post_witness :
    rnaview_profile_begin demoStaleProfile none none 3 7 =
        { demoStaleProfile with enabled := 0 } ∧
    (rnaview_profile_begin demoStaleProfile (some "p.json".data)
        (some "in.pdb".data) 3 7).cand_pairs = 0 := by
  have h1 := (rnaview_profile_begin_post demoStaleProfile none none 3 7).1
    (Or.inl rfl)
  have h2 := (rnaview_profile_begin_post demoStaleProfile
    (some "p.json".data) (some "in.pdb".data) 3 7).2 "p.json".data rfl
    (by decide)
  exact ⟨h1, h2.2.1⟩

/-- C9: `copy_str` never overflows and always NUL-terminates: with a NULL
`dst` or a zero capacity it writes nothing; otherwise it writes at most
`cap` bytes, leaves in `dst` the longest prefix of `src` of length at most
`cap - 1` (empty for a NULL `src`), so the 1024-byte path buffers receive at
most 1023 characters — truncation, never overflow. -/
theorem copy_str_safe (dstNull : Bool) (cap : Nat) (src : Option (List Char)) :
    (dstNull = true ∨ cap = 0 →
      copy_str dstNull cap src = none ∧ copy_str_writes dstNull cap src = 0) ∧
    (dstNull = false → 0 < cap →
      copy_str_writes dstNull cap src ≤ cap ∧
      copy_str dstNull cap src = some ((src.getD []).take (cap - 1)) ∧
      ((src.getD []).take (cap - 1)).length ≤ cap - 1) ∧
    ((copy_str false 1024 src).getD []).length ≤ 1023 := by
  refine ⟨?_, ?_, ?_⟩
  · rintro (rfl | rfl)
    · exact ⟨by rw [copy_str.eq_def, if_pos (Or.inl rfl)],
        by rw [copy_str_writes.eq_def, if_pos (Or.inl rfl)]⟩
    · exact ⟨by rw [copy_str.eq_def, if_pos (Or.inr rfl)],
        by rw [copy_str_writes.eq_def, if_pos (Or.inr rfl)]⟩
  · rintro rfl hc
    have hcond : ¬((false = true) ∨ cap = 0) := by
      rintro (h | h)
      · exact Bool.false_ne_true h
      · omega
    refine ⟨?_, ?_, ?_⟩
    · rw [copy_str_writes.eq_def, if_neg hcond]
      cases src with
      | none =>
        show 1 ≤ cap
        omega
      | some s =>
        show min s.length (cap - 1) + 1 ≤ cap
        have := Nat.min_le_right s.length (cap - 1)
        omega
    · rw [copy_str.eq_def, if_neg hcond]
      cases src <;> simp
    · rw [List.length_take]
      have := Nat.min_le_left ((src.getD []).length) (cap - 1)
      omega
  · have hcond : ¬((false = true) ∨ (1024 : Nat) = 0) := by
      rintro (h | h)
      · exact Bool.false_ne_true h
      · omega
    rw [copy_str.eq_def, if_neg hcond]
    cases src with
    | none => simp
    | some s =>
      simp only [Option.getD_some]
      rw [List.length_take]
      omega

/-- C9 witness: concrete evaluations of `copy_str` — early return on a NULL
`dst`, truncation to `cap - 1 = 1` characters, and the 1024-byte buffer
bound. -/
theorem copy_str_safe_witness :
    copy_str true 4 (some "abc".data) = none ∧
    copy_str_writes false 2 (some "abc".data) ≤ 2 ∧
    copy_str false 2 (some "abc".data) = some "a".data ∧
    ((copy_str false 1024 (some "abc".data)).getD []).length ≤ 1023 := by
  have h1 := ((copy_str_safe true 4 (some "abc".data)).1 (Or.inl rfl)).1
  have h2 := (copy_str_safe false 2 (some "abc".data)).2.1 rfl (by decide)
  refine ⟨h1, h2.1, ?_, (copy_str_safe false 1024 (some "abc".data)).2.2⟩
  rw [h2.2.1]
  decide

/-- C10: with profiling disabled (`enabled = 0`) both accumulator functions
return the profile unchanged and `rnaview_profile_dump` returns without
writing any file; `rnaview_profile_dump` likewise writes nothing when
`json_path` is the empty string. -/
theorem profiling_disabled_noop (st : RnaViewProfile) (d1 d2 now : Int)
    (ok : Bool) :
    (st.enabled = 0 →
      rnaview_profile_add_all_pairs_hbond_pair_h_catalog st d1 = st ∧
      rnaview_profile_add_all_pairs_lw_get_hbond_ij st d2 = st ∧
      rnaview_profile_dump st now ok = (st, none)) ∧
    (st.json_path = [] → rnaview_profile_dump st now ok = (st, none)) := by
  constructor
  · intro h
    refine ⟨?_, ?_, ?_⟩
    · rw [rnaview_profile_add_all_pairs_hbond_pair_h_catalog, if_pos h]
    · rw [rnaview_profile_add_all_pairs_lw_get_hbond_ij, if_pos h]
    · rw [rnaview_profile_dump, if_pos (Or.inl h)]
  · intro h
    rw [rnaview_profile_dump, if_pos (Or.inr h)]

/-- C10 witness: concrete evaluation on a disabled profile carrying a stale
counter. -/
theorem profiling_disabled_noop_witness :
    rnaview_profile_add_all_pairs_hbond_pair_h_catalog demoStaleProfile 3 =
        demoStaleProfile ∧
    rnaview_profile_add_all_pairs_lw_get_hbond_ij demoStaleProfile 4 =
        demoStaleProfile ∧
    rnaview_profile_dump demoStaleProfile 9 true = (demoStaleProfile, none) :=
  (profiling_disabled_noop demoStaleProfile 3 4 9 true).1 rfl

/-- C2 counterexample: with `RNAVIEW_PROFILE_JSON` unset,
`rnaview_profile_begin` leaves the stale `cand_pairs = 5` written during the
previous analysis in place, so it is not the case that every process-wide
mutable variable is reset before each structure's analysis begins. -/
theorem begin_not_full_reset_counterexample :
    (rnaview_profile_begin demoStaleProfile none none 0 0).cand_pairs = 5 ∧
    rnaview_profile_begin demoStaleProfile none none 0 0 ≠
      rnaview_profile_begin zeroProfile none none 0 0 := by
  constructor
  · rfl
  · decide

/-- C2 (amended): `rnaview_profile_begin` resets the whole global profile
when `RNAVIEW_PROFILE_JSON` is set and non-empty — the new state is
independent of the previous one; when the variable is unset or empty only
`enabled` is cleared and stale fields persist, but profiling is then
disabled, so the accumulators and `rnaview_profile_dump` neither modify the
profile further nor write any file — no field written during one analysis is
observable in the next. -/
theorem no_state_observable_across_structures (st : RnaViewProfile)
    (ip : Option (List Char)) (nr now : Int) :
    (∀ p : List Char, p ≠ [] →
      rnaview_profile_begin st (some p) ip nr now =
        rnaview_profile_begin zeroProfile (some p) ip nr now) ∧
    (∀ env : Option (List Char), env = none ∨ env = some [] →
      (rnaview_profile_begin st env ip nr now).enabled = 0 ∧
      (∀ d, rnaview_profile_add_all_pairs_hbond_pair_h_catalog
            (rnaview_profile_begin st env ip nr now) d =
          rnaview_profile_begin st env ip nr now) ∧
      (∀ d, rnaview_profile_add_all_pairs_lw_get_hbond_ij
            (rnaview_profile_begin st env ip nr now) d =
          rnaview_profile_begin st env ip nr now) ∧
      (∀ now2 ok, rnaview_profile_dump
            (rnaview_profile_begin st env ip nr now) now2 ok =
          (rnaview_profile_begin st env ip nr now, none))) := by
  constructor
  · intro p hp
    rw [rnaview_profile_begin, rnaview_profile_begin, if_neg hp, if_neg hp]
  · rintro env (rfl | rfl)
    · have he : (rnaview_profile_begin st none ip nr now).enabled = 0 := rfl
      exact ⟨he,
        fun d => by
          rw [rnaview_profile_add_all_pairs_hbond_pair_h_catalog, if_pos he],
        fun d => by
          rw [rnaview_profile_add_all_pairs_lw_get_hbond_ij, if_pos he],
        fun now2 ok => by
          rw [rnaview_profile_dump, if_pos (Or.inl he)]⟩
    · have he : (rnaview_profile_begin st (some []) ip nr now).enabled = 0 := by
        rw [rnaview_profile_begin, if_pos rfl]
      exact ⟨he,
        fun d => by
          rw [rnaview_profile_add_all_pairs_hbond_pair_h_catalog, if_pos he],
        fun d => by
          rw [rnaview_profile_add_all_pairs_lw_get_hbond_ij, if_pos he],
        fun now2 ok => by
          rw [rnaview_profile_dump, if_pos (Or.inl he)]⟩

/-- C2 witness: concrete evaluation — the enabled branch forgets the stale
profile, the disabled branch makes it unobservable. -/
theorem no_state_observable_across_structures_witness :
    rnaview_profile_begin demoStaleProfile (some "p.json".data) none 0 0 =
        rnaview_profile_begin zeroProfile (some "p.json".data) none 0 0 ∧
    rnaview_profile_dump (rnaview_profile_begin demoStaleProfile none none 0 0)
        9 true =
      (rnaview_profile_begin demoStaleProfile none none 0 0, none) := by
  have h := no_state_observable_across_structures demoStaleProfile none 0 0
  exact ⟨h.1 "p.json".data (by decide), (h.2 none (Or.inl rfl)).2.2.2 9 true⟩

/-- C1: for identical input and options (structure, classifier, input path),
any two invocations yield identical core records in both the structured and
the textual surface, whatever the environment variable, clock readings,
accumulated deltas, pre-existing profile and `fopen` outcome; and the only
time-dependent code in scope, `rnaview_profile_dump`, writes its
clock-derived values only into the separate profile JSON file — the file
named by the profile's `json_path` — never into a core record. -/
theorem core_records_deterministic (residues : List Residue)
    (classify : Nat → Nat → Option VerdictInfo)
    (inputPath : Option (List Char)) (inv inv' : Invocation) :
    ((run_instrumented residues classify inputPath inv).1 =
        (run_instrumented residues classify inputPath inv').1) ∧
    ((run_instrumented residues classify inputPath inv).1.map emit_json =
        (run_instrumented residues classify inputPath inv').1.map emit_json) ∧
    ((run_instrumented residues classify inputPath inv).1.map emit_text =
        (run_instrumented residues classify inputPath inv').1.map emit_text) ∧
    (∀ fw, (run_instrumented residues classify inputPath inv).2.2 = some fw →
      fw.path =
        (run_instrumented residues classify inputPath inv).2.1.json_path) := by
  refine ⟨rfl, rfl, rfl, ?_⟩
  intro fw hfw
  simp only [run_instrumented] at hfw ⊢
  rw [dump_fst_json_path]
  exact dump_write_path _ _ _ _ hfw

/-- C1 witness: two concrete invocations on the demo structure, one with
profiling enabled and one disabled, produce the same core record, and the
enabled invocation's only file write goes to the profile's `json_path`. -/
theorem core_records_deterministic_witness :
    ((run_instrumented demoResidues demoClassify none demoInv).1 =
        (run_instrumented demoResidues demoClassify none demoInv2).1) ∧
    FileWrite.path
        ((run_instrumented demoResidues demoClassify none demoInv).2.2.getD
          ⟨[], []⟩) =
      (run_instrumented demoResidues demoClassify none demoInv).2.1.json_path := by
  have h := core_records_deterministic demoResidues demoClassify none
    demoInv demoInv2
  exact ⟨h.1, h.2.2.2 _ (by decide)⟩

/-- C3: the profiling counters are instrumentation, not semantics — a run
with `RNAVIEW_PROFILE_JSON` set (profiling enabled) and a run with it unset
(disabled) produce identical core output; the accumulator calls made during
a run never change the core output; and `rnaview_profile_dump` writes at
most one file, named by `RNAVIEW_PROFILE.json_path`, never touching analysis
state. -/
theorem profiling_counters_not_semantics (residues : List Residue)
    (classify : Nat → Nat → Option VerdictInfo) (ip : Option (List Char))
    (inv : Invocation) (p : List Char) :
    ((run_instrumented residues classify ip { inv with env := some p }).1 =
        (run_instrumented residues classify ip { inv with env := none }).1) ∧
    (∀ ds1 ds2 : List Int,
        (run_instrumented residues classify ip
            { inv with
                deltas_h_catalog := ds1
                deltas_lw_get_hbond_ij := ds2 }).1 =
          analyze residues classify) ∧
    (∀ st now ok fw, (rnaview_profile_dump st now ok).2 = some fw →
        fw.path = st.json_path) :=
  ⟨rfl, fun _ _ => rfl, fun st now ok fw h => dump_write_path st now ok fw h⟩

/-- C3 witness: concrete enabled-versus-disabled runs agree on the core
record, and a concrete dump writes exactly the file named by `json_path`. -/
theorem profiling_counters_not_semantics_witness :
    ((run_instrumented demoResidues demoClassify none
        { demoInv2 with env := some "profile.json".data }).1 =
      (run_instrumented demoResidues demoClassify none
        { demoInv2 with env := none }).1) ∧
    FileWrite.path
        ((rnaview_profile_dump demoEnabledProfile 9 true).2.getD ⟨[], []⟩) =
      demoEnabledProfile.json_path := by
  have h := profiling_counters_not_semantics demoResidues demoClassify none
    demoInv2 "profile.json".data
  exact ⟨h.1, h.2.2 demoEnabledProfile 9 true _ (by decide)⟩

/-- C4: in the final record set of every analysed structure, every record
satisfies `1 ≤ i < j ≤ total_bases` and no two records share the same
unordered index pair. -/
theorem final_records_indexing (residues : List Residue)
    (classify : Nat → Nat → Option VerdictInfo) :
    ∃ res : CoreResult, analyze residues classify = Except.ok res ∧
      (∀ r ∈ res.base_pairs, 1 ≤ r.i ∧ r.i < r.j ∧ r.j ≤ res.total_bases) ∧
      (res.base_pairs.map pairKey).Nodup := by
  refine ⟨_, analyze_ok_eq residues classify, ?_, ?_⟩
  · intro r hr
    exact all_pairs_mem_bounds hr
  · exact all_pairs_keys_nodup _ _

/-- C4 witness: concrete evaluation on the demo structure. -/
theorem final_records_indexing_witness :
    ∃ res : CoreResult, analyze demoResidues demoClassify = Except.ok res ∧
      (∀ r ∈ res.base_pairs, 1 ≤ r.i ∧ r.i < r.j ∧ r.j ≤ res.total_bases) ∧
      (res.base_pairs.map pairKey).Nodup :=
  final_records_indexing demoResidues demoClassify

/-- C5: the emitted statistics close over the record set — `total_bases` is
the number of recognised residues, `total_pairs` the number of final records
with `kind = pair`, and the `pair_type_counts` values sum exactly to
`total_pairs`. -/
theorem stats_closure (residues : List Residue)
    (classify : Nat → Nat → Option VerdictInfo) :
    ∃ res : CoreResult, analyze residues classify = Except.ok res ∧
      res.total_bases = (residues.filter fun r => r.isBase).length ∧
      res.total_pairs =
        (res.base_pairs.filter fun r => decide (r.kind = PairKind.pair)).length ∧
      ((res.pair_type_counts.map Prod.snd).sum = res.total_pairs) := by
  refine ⟨_, analyze_ok_eq residues classify, rfl, rfl, ?_⟩
  exact pair_type_counts_sum _

/-- C5 witness: concrete evaluation on the demo structure. -/
theorem stats_closure_witness :
    ∃ res : CoreResult, analyze demoResidues demoClassify = Except.ok res ∧
      res.total_bases = (demoResidues.filter fun r => r.isBase).length ∧
      res.total_pairs =
        (res.base_pairs.filter fun r => decide (r.kind = PairKind.pair)).length ∧
      ((res.pair_type_counts.map Prod.snd).sum = res.total_pairs) :=
  stats_closure demoResidues demoClassify

/-- C6: a structure with zero recognised nucleic residues raises no error —
the analysis returns the single well-defined empty-structure result with
empty record and multiplet sets, zero totals, and the condition reported. -/
theorem empty_structure_wellformed (residues : List Residue)
    (classify : Nat → Nat → Option VerdictInfo)
    (h : countBases residues = 0) :
    analyze residues classify = Except.ok
      { base_pairs := [], multiplets := [], total_pairs := 0, total_bases := 0
        pair_type_counts := [], empty_reported := true } := by
  rw [analyze_ok_eq residues classify, h]
  rfl

/-- C6 witness: concrete evaluation on a structure consisting of a single
water residue. -/
theorem empty_structure_wellformed_witness :
    analyze demoEmptyResidues demoClassify = Except.ok
      { base_pairs := [], multiplets := [], total_pairs := 0, total_bases := 0
        pair_type_counts := [], empty_reported := true } :=
  empty_structure_wellformed demoEmptyResidues demoClassify (by decide)

/-- C7: the byte-exact regression mode is the stricter gate and the bundled
test script invokes it (`--regress --regress-mode out`) over its fixed list
of 14 inputs; whenever the script reaches the batch command (binary present
or built successfully), it exits 0 and removes its temporary output
directory exactly when that command succeeds, and otherwise exits 1 keeping
the directory. -/
theorem regression_script_gate (binPresent buildOk : Bool) (buildExit : Nat)
    (batchOk : Bool) (outDir : String)
    (h : binPresent = true ∨ buildOk = true) :
    (run_test_script binPresent buildOk buildExit batchOk =
        ⟨0, true, true⟩ ↔ batchOk = true) ∧
    (batchOk = false →
      run_test_script binPresent buildOk buildExit batchOk =
        ⟨1, true, false⟩) ∧
    test_inputs.length = 14 ∧
    "--regress" ∈ batch_args outDir ∧
    "--regress-mode" ∈ batch_args outDir ∧
    "out" ∈ batch_args outDir ∧
    script_regress_mode = byte_exact_mode := by
  have hcond : ¬(¬(binPresent = true) ∧ ¬(buildOk = true)) := by
    rcases h with h | h <;> simp [h]
  refine ⟨?_, ?_, rfl, ?_, ?_, ?_, rfl⟩
  · rw [run_test_script, if_neg hcond]
    by_cases hb : batchOk = true
    · simp [hb]
    · rw [if_neg hb]
      constructor
      · intro he
        exact absurd (congrArg ScriptOutcome.exit_code he) (by decide)
      · intro he
        exact absurd he hb
  · intro hb
    rw [run_test_script, if_neg hcond, if_neg (by rw [hb]; exact Bool.false_ne_true)]
  · simp [batch_args, test_inputs]
  · simp [batch_args, test_inputs]
  · simp [batch_args, test_inputs]

/-- C7 witness: concrete evaluation of the script gate with the binary
present — success removes the directory with exit 0, failure keeps it with
exit 1. -/
theorem regression_script_gate_witness :
    (run_test_script true true 0 true = ⟨0, true, true⟩ ↔ true = true) ∧
    run_test_script true true 0 false = ⟨1, true, false⟩ ∧
    test_inputs.length = 14 ∧
    script_regress_mode = byte_exact_mode := by
  have h1 := regression_script_gate true true 0 true "o" (Or.inl rfl)
  have h2 := regression_script_gate true true 0 false "o" (Or.inl rfl)
  exact ⟨h1.1, h2.2.1 rfl, h1.2.2.1, h1.2.2.2.2.2.2⟩

end RnaView
